import Mathlib

/-!
Verification of the multi-source Bitcoin price aggregation core of
`main.py` (endpoints `/bitcoin/all` and `/bitcoin/source/{source}` and the
normalizer `parse_crypto_response`), shallowly embedded in Lean 4.

Decoded JSON payloads are modelled by an inductive `Json` tree; Python
runtime exceptions raised by data access (`KeyError`, `TypeError`, ...)
are modelled by `Except PyExc`; network nondeterminism is modelled by an
environment function giving the result of each HTTP attempt.
-/

/-- A decoded JSON value, as produced by `response.json()`.  Python floats
are modelled by rationals (every numeric value the claims touch is exact
in binary floating point, so `ℚ` arithmetic agrees with `float`
arithmetic on them). -/
inductive Json where
  | null
  | bool (b : Bool)
  | num (q : ℚ)
  | str (s : String)
  | arr (xs : List Json)
  | obj (kvs : List (String × Json))
deriving Repr

/-- A Python runtime exception kind.  All constructors except `baseExc`
model subclasses of `Exception` (and hence are caught by
`except Exception`); `baseExc` models a `BaseException` that is not an
`Exception` (e.g. `KeyboardInterrupt`) and is never raised by pure data
access. -/
inductive PyExc where
  | keyError (k : String)
  | typeError (m : String)
  | valueError (m : String)
  | attributeError (m : String)
  | indexError (m : String)
  | baseExc (m : String)
deriving Repr, DecidableEq

/-- Whether `except Exception` catches this exception. -/
def PyExc.catchable : PyExc → Bool
  | .baseExc _ => false
  | _ => true

/-- A rendering of `str(e)` for an exception (the exact Python message
text is irrelevant to every claim; only which exception kind occurs
matters). -/
def PyExc.msg : PyExc → String
  | .keyError k => k
  | .typeError m => m
  | .valueError m => m
  | .attributeError m => m
  | .indexError m => m
  | .baseExc m => m

/-- `d[k]` on a decoded value: dict lookup, `KeyError` when the key is
missing, `TypeError` when the value is not subscriptable by a string. -/
def pyGetItem (j : Json) (k : String) : Except PyExc Json :=
  match j with
  | .obj kvs =>
    match kvs.find? (fun p => p.1 = k) with
    | some p => .ok p.2
    | none => .error (.keyError k)
  | _ => .error (.typeError "value is not subscriptable by a string key")

/-- `d[i]` for an integer index: list/str indexing with `IndexError` out
of range, `KeyError` on a dict (our dicts are string-keyed), `TypeError`
otherwise. -/
def pyIndex (j : Json) (i : Nat) : Except PyExc Json :=
  match j with
  | .arr xs =>
    match xs.get? i with
    | some x => .ok x
    | none => .error (.indexError "list index out of range")
  | .str s =>
    match s.toList.get? i with
    | some c => .ok (.str (String.singleton c))
    | none => .error (.indexError "string index out of range")
  | .obj _ => .error (.keyError (toString i))
  | _ => .error (.typeError "value is not subscriptable by an integer")

/-- `d.get(k, default)`: `AttributeError` when the receiver is not a
dict. -/
def pyGetD (j : Json) (k : String) (dflt : Json) : Except PyExc Json :=
  match j with
  | .obj kvs =>
    match kvs.find? (fun p => p.1 = k) with
    | some p => .ok p.2
    | none => .ok dflt
  | _ => .error (.attributeError "value has no attribute get")

/-- `d.get(k)` (default `None`). -/
def pyGet (j : Json) (k : String) : Except PyExc Json :=
  pyGetD j k .null

/-- Does `pat` occur at the head of `s`? -/
def leadsWith : List Char → List Char → Bool
  | [], _ => true
  | _ :: _, [] => false
  | p :: ps, c :: cs => p = c && leadsWith ps cs

/-- Substring occurrence test on character lists. -/
def containsSub : List Char → List Char → Bool
  | [], pat => pat.isEmpty
  | s@(_ :: t), pat => leadsWith pat s || containsSub t pat

/-- `k in j`: key test on dicts, element test on lists, substring test on
strings, `TypeError` on non-containers. -/
def pyContains (j : Json) (k : String) : Except PyExc Bool :=
  match j with
  | .obj kvs => .ok (kvs.any (fun p => p.1 = k))
  | .arr xs => .ok (xs.any (fun x => match x with | .str s => s = k | _ => false))
  | .str s => .ok (containsSub s.toList k.toList)
  | _ => .error (.typeError "argument is not iterable")

/-- Accumulate a digit string into a natural number; `none` on a
non-digit. -/
def digitsToNat (cs : List Char) : Option Nat :=
  cs.foldl
    (fun acc c =>
      match acc with
      | none => none
      | some n => if c.isDigit then some (n * 10 + (c.toNat - 48)) else none)
    (some 0)

/-- The decimal string forms accepted by Python `float(str)` that the
program can meet: an optional sign, an integer part, and an optional
fractional part.  Returns `none` (→ `ValueError`) otherwise. -/
def strToQ (s : String) : Option ℚ :=
  let cs := s.toList
  let signed : Bool × List Char :=
    match cs with
    | '-' :: t => (true, t)
    | '+' :: t => (false, t)
    | _ => (false, cs)
  let body := signed.2
  let val : Option ℚ :=
    match body.splitOn '.' with
    | [ip] =>
      if ip.isEmpty then none
      else (digitsToNat ip).map (fun n => (n : ℚ))
    | [ip, fp] =>
      if ip.isEmpty && fp.isEmpty then none
      else
        match digitsToNat ip, digitsToNat fp with
        | some n, some f => some ((n : ℚ) + (f : ℚ) / ((10 : ℚ) ^ fp.length))
        | _, _ => none
    | _ => none
  val.map (fun q => if signed.1 then -q else q)

/-- `float(x)`: numbers pass through, booleans become 0/1, strings are
parsed (`ValueError` on failure), everything else is a `TypeError`. -/
def pyFloat (j : Json) : Except PyExc ℚ :=
  match j with
  | .num q => .ok q
  | .bool b => .ok (if b then 1 else 0)
  | .str s =>
    match strToQ s with
    | some q => .ok q
    | none => .error (.valueError "could not convert string to float")
  | _ => .error (.typeError "argument must be a string or a real number")

/-- Python truthiness of a decoded value (never raises for these
types). -/
def pyTruthy : Json → Bool
  | .null => false
  | .bool b => b
  | .num q => q ≠ 0
  | .str s => s ≠ ""
  | .arr xs => !xs.isEmpty
  | .obj kvs => !kvs.isEmpty

/-- `d[k] = v` on a dict: replace in place when the key exists, append
otherwise.  (Only ever applied to dicts in the program; on a non-dict it
is the identity, a case the development proves unreachable.) -/
def objSet (j : Json) (k : String) (v : Json) : Json :=
  match j with
  | .obj kvs =>
    if kvs.any (fun p => p.1 = k) then
      .obj (kvs.map (fun p => if p.1 = k then (k, v) else p))
    else
      .obj (kvs ++ [(k, v)])
  | _ => j

/-- `"error" in r`-style key test (false on non-dicts, matching
`isinstance(r, dict) and "error" in r`). -/
def objHasKey (j : Json) (k : String) : Bool :=
  match j with
  | .obj kvs => kvs.any (fun p => p.1 = k)
  | _ => false

/-- Is the value a dict (`isinstance(r, dict)`)? -/
def isDict : Json → Bool
  | .obj _ => true
  | _ => false

/-- Numeric field lookup, for stating concrete facts about records. -/
def objGetNum (j : Json) (k : String) : Option ℚ :=
  match j with
  | .obj kvs =>
    match kvs.find? (fun p => p.1 = k) with
    | some (_, .num q) => some q
    | _ => none
  | _ => none

/-- The `{"error": msg}` dict the program uses for structured failures. -/
def errObj (m : String) : Json :=
  .obj [("error", .str m)]

/-! ## The source registry (`CRYPTO_APIS` in `main.py`) -/

/-- One entry of `CRYPTO_APIS`. -/
structure ApiConfig where
  url : String
  requires_key : Bool
  timeout : ℚ
deriving Repr

/-- The `CRYPTO_APIS` registry, verbatim and in configuration order. -/
def CRYPTO_APIS : List (String × ApiConfig) :=
  [("coinbase",
    ⟨"https://api.coinbase.com/v2/exchange-rates?currency=BTC", false, 8⟩),
   ("blockchain", ⟨"https://blockchain.info/ticker", false, 8⟩),
   ("coinmarketcap",
    ⟨"https://pro-api.coinmarketcap.com/v1/cryptocurrency/quotes/latest", true, 8⟩),
   ("binance",
    ⟨"https://api.binance.com/api/v3/ticker/price?symbol=BTCUSDT", false, 5⟩),
   ("kraken", ⟨"https://api.kraken.com/0/public/Ticker?pair=XBTUSD", false, 8⟩),
   ("nobitex", ⟨"https://apiv2.nobitex.ir/v3/orderbook/BTCUSDT", false, 8⟩)]

/-- `list(CRYPTO_APIS.keys())`. -/
def registeredSources : List String := CRYPTO_APIS.map Prod.fst

/-! ## The normalizer `parse_crypto_response`

Each branch of the Python function is split into an extraction step
(the field accesses, which can raise) and a pure dict constructor, so the
statement "the result is always a dict" is visible per branch. -/

/-- The `coinbase` branch's accesses:
`float(data["data"]["rates"]["USD"])` and likewise for EUR and GBP. -/
def coinbaseRates (data : Json) : Except PyExc (ℚ × ℚ × ℚ) := do
  let u ← pyFloat (← pyGetItem (← pyGetItem (← pyGetItem data "data") "rates") "USD")
  let e ← pyFloat (← pyGetItem (← pyGetItem (← pyGetItem data "data") "rates") "EUR")
  let g ← pyFloat (← pyGetItem (← pyGetItem (← pyGetItem data "data") "rates") "GBP")
  return (u, e, g)

/-- The `blockchain` branch's accesses: `data["USD"]["last"]` etc.
(no numeric conversion in the source). -/
def blockchainVals (data : Json) : Except PyExc (Json × Json × Json) := do
  let u ← pyGetItem (← pyGetItem data "USD") "last"
  let e ← pyGetItem (← pyGetItem data "EUR") "last"
  let g ← pyGetItem (← pyGetItem data "GBP") "last"
  return (u, e, g)

/-- The `coinmarketcap` branch's accesses:
`btc_data = data["data"]["BTC"]["quote"]["USD"]` then four field reads. -/
def coinmarketcapVals (data : Json) :
    Except PyExc (Json × Json × Json × Json) := do
  let btc ← pyGetItem (← pyGetItem (← pyGetItem (← pyGetItem data "data") "BTC") "quote") "USD"
  let p ← pyGetItem btc "price"
  let c ← pyGetItem btc "percent_change_24h"
  let m ← pyGetItem btc "market_cap"
  let v ← pyGetItem btc "volume_24h"
  return (p, c, m, v)

/-- The `binance` branch's access: `float(data["price"])`. -/
def binancePrice (data : Json) : Except PyExc ℚ := do
  pyFloat (← pyGetItem data "price")

/-- The `kraken` branch: the guarded key tests
`"result" in data and "XXBTZUSD" in data["result"]` (short-circuiting),
then `float(data["result"]["XXBTZUSD"]["c"][0])`; `none` encodes the
guard failing. -/
def krakenPrice (data : Json) : Except PyExc (Option ℚ) := do
  let b1 ← pyContains data "result"
  let cond ← if b1 then pyContains (← pyGetItem data "result") "XXBTZUSD" else pure false
  if cond then
    let v ← pyFloat
      (← pyIndex (← pyGetItem (← pyGetItem (← pyGetItem data "result") "XXBTZUSD") "c") 0)
    return some v
  else
    return none

/-- Shared order-book extraction (`nobitex`), used by both the normalizer
branch and the bespoke single-source path: the status check, then
last-trade price, best bid/ask (0 when the respective list is falsy), and
the midpoint; `none` encodes `data.get("status") != "ok"`.  Returns
`(mid, last_trade_price, best_bid, best_ask)`. -/
def nobitexVals (data : Json) : Except PyExc (Option (ℚ × ℚ × ℚ × ℚ)) := do
  let st ← pyGet data "status"
  if (match st with | .str s => s = "ok" | _ => false : Bool) then
    let ltp ← pyFloat (← pyGetD data "lastTradePrice" (.num 0))
    let bids ← pyGetD data "bids" (.arr [])
    let asks ← pyGetD data "asks" (.arr [])
    let bb ← if pyTruthy bids then pyFloat (← pyIndex (← pyIndex bids 0) 0) else pure 0
    let ba ← if pyTruthy asks then pyFloat (← pyIndex (← pyIndex asks 0) 0) else pure 0
    let mid := if bb ≠ 0 ∧ ba ≠ 0 then (bb + ba) / 2 else ltp
    return some (mid, ltp, bb, ba)
  else
    return none

/-- The body of `parse_crypto_response` before its `try`/`except`
wrapper: dispatch on the source identifier; an unmatched identifier
returns the initial empty `result = {}`. -/
def parseCore (source : String) (data : Json) : Except PyExc Json :=
  if source = "coinbase" then
    (coinbaseRates data).map
      (fun r => .obj [("usd", .num r.1), ("eur", .num r.2.1), ("gbp", .num r.2.2)])
  else if source = "blockchain" then
    (blockchainVals data).map
      (fun r => .obj [("usd", r.1), ("eur", r.2.1), ("gbp", r.2.2)])
  else if source = "coinmarketcap" then
    (coinmarketcapVals data).map
      (fun r => .obj [("usd", r.1), ("24h_change", r.2.1),
                      ("market_cap", r.2.2.1), ("volume_24h", r.2.2.2)])
  else if source = "binance" then
    (binancePrice data).map (fun q => .obj [("usd", .num q)])
  else if source = "kraken" then
    (krakenPrice data).map
      (fun o => match o with
        | some v => .obj [("usd", .num v)]
        | none => errObj "Unexpected Kraken response format")
  else if source = "nobitex" then
    (nobitexVals data).map
      (fun o => match o with
        | some r => .obj [("usd", .num r.1), ("last_trade_price", .num r.2.1),
                          ("best_bid", .num r.2.2.1), ("best_ask", .num r.2.2.2)]
        | none => errObj "Invalid Nobitex response")
  else
    .ok (.obj [])

/-- `parse_crypto_response`: the dispatch wrapped in
`try ... except Exception as e: result = {"error": f"Parse error: {e}"}`.
An uncatchable exception (never produced — proved below) would
propagate. -/
def parse_crypto_response (source : String) (data : Json) : Except PyExc Json :=
  match parseCore source data with
  | .ok r => .ok r
  | .error e =>
    if e.catchable then .ok (errObj ("Parse error: " ++ e.msg)) else .error e

/-- The value `parse_crypto_response` hands to its callers.  The fallback
arm is unreachable (`parse_crypto_response` never returns `.error`; see
`parse_crypto_response_total`). -/
def parseOut (source : String) (data : Json) : Json :=
  match parse_crypto_response source data with
  | .ok r => r
  | .error e => errObj ("uncaught exception: " ++ e.msg)

/-! ## Network model

The nondeterministic outcome of each HTTP attempt is an environment
input: `env source n` (aggregate path) or `env n` (single-source path) is
what the `n`-th GET for that source produced. -/

/-- The result of one HTTP attempt as seen by the caller: a response with
a status code and decoded body, a timeout exception, or another
request-level exception (connection failure etc.). -/
inductive HttpAttempt where
  | response (status : Nat) (body : Json)
  | timeout
  | exc (m : String)
deriving Repr

/-- A rendering of `str(e)` for a failed attempt (the exact text is
irrelevant to the claims). -/
def attemptErrStr : HttpAttempt → String
  | .response st _ => "HTTP status " ++ toString st
  | .timeout => "request timed out"
  | .exc m => m

/-- The externally visible actions of one source's unit of work: how many
HTTP attempts were issued and which backoff sleeps (`asyncio.sleep`)
were taken, in order, in seconds. -/
structure Trace where
  attempts : Nat
  sleeps : List ℚ
deriving Repr, DecidableEq

/-! ## The aggregate operation `GET /bitcoin/all` -/

/-- The single-attempt `httpx` branch `fetch_source` uses for `coinbase`
and `binance`: one GET, `raise_for_status` (raises on any non-2xx), parse
on success; any exception becomes `{"error": f"... error: {e}"}`. -/
def simpleFetch (env : Nat → HttpAttempt) (source msgHead : String) : Json × Trace :=
  match env 0 with
  | .response st b =>
    if 200 ≤ st ∧ st ≤ 299 then (parseOut source b, ⟨1, []⟩)
    else (errObj (msgHead ++ attemptErrStr (.response st b)), ⟨1, []⟩)
  | .timeout => (errObj (msgHead ++ attemptErrStr .timeout), ⟨1, []⟩)
  | .exc m => (errObj (msgHead ++ m), ⟨1, []⟩)

/-- The second iteration of `fetch_source`'s generic
`for attempt in range(2)` loop (reached after `await asyncio.sleep(1)`):
status 200 parses, any other outcome is final. -/
def aggSecondAttempt (env : Nat → HttpAttempt) (source : String) : Json × Trace :=
  match env 1 with
  | .response st b =>
    if st = 200 then (parseOut source b, ⟨2, [1]⟩)
    else (errObj ("HTTP " ++ toString st), ⟨2, [1]⟩)
  | .timeout => (errObj "Timeout", ⟨2, [1]⟩)
  | .exc m => (errObj m, ⟨2, [1]⟩)

/-- `fetch_source`'s generic retry loop (used for every source except
`coinbase`/`binance`): attempt 0 returns immediately on status 200 and
otherwise sleeps 1 second and retries once. -/
def aggRequestLoop (env : Nat → HttpAttempt) (source : String) : Json × Trace :=
  match env 0 with
  | .response st b =>
    if st = 200 then (parseOut source b, ⟨1, []⟩)
    else aggSecondAttempt env source
  | .timeout => aggSecondAttempt env source
  | .exc _ => aggSecondAttempt env source

/-- The per-source unit of work `fetch_source(source, config)` of
`get_bitcoin_all_sources`: the credential guard for `coinmarketcap`,
the bespoke single-attempt branches for `coinbase` and `binance`, and the
generic retry loop otherwise.  Always returns the `(source, data)` pair
the Python coroutine returns, plus its action trace. -/
def fetch_source (key : Option String) (env : String → Nat → HttpAttempt)
    (source : String) : (String × Json) × Trace :=
  if source = "coinmarketcap" ∧ key = none then
    ((source, errObj "API key required but not configured"), ⟨0, []⟩)
  else if source = "coinbase" then
    let r := simpleFetch (env source) source "Coinbase error: "
    ((source, r.1), r.2)
  else if source = "binance" then
    let r := simpleFetch (env source) source "Binance error: "
    ((source, r.1), r.2)
  else
    let r := aggRequestLoop (env source) source
    ((source, r.1), r.2)

/-- The value `GET /bitcoin/all` serializes. -/
structure AggReport where
  bitcoin_prices : List (String × Json)
  successful_sources : Nat
  failed_sources : Nat
deriving Repr

/-- `isinstance(r, dict) and "error" not in r`. -/
def isSuccessEntry (v : Json) : Bool := isDict v && !objHasKey v "error"

/-- `isinstance(r, dict) and "error" in r`. -/
def isFailedEntry (v : Json) : Bool := isDict v && objHasKey v "error"

/-- `get_bitcoin_all_sources`: fan out `fetch_source` over the registry
under `asyncio.wait_for(..., timeout=60)`.  When the global deadline
fires (`globalTimeout`), the `except asyncio.TimeoutError` arm replaces
the whole mapping with the single entry
`results["error"] = "Global timeout reached"`; otherwise every
coroutine's `(source, data)` pair is inserted in task order. -/
def get_bitcoin_all_sources (key : Option String)
    (env : String → Nat → HttpAttempt) (globalTimeout : Bool) : AggReport :=
  let results : List (String × Json) :=
    if globalTimeout then [("error", .str "Global timeout reached")]
    else CRYPTO_APIS.map (fun p => (fetch_source key env p.1).1)
  { bitcoin_prices := results
    successful_sources := (results.filter (fun p => isSuccessEntry p.2)).length
    failed_sources := (results.filter (fun p => isFailedEntry p.2)).length }

/-! ## The single-source operation `GET /bitcoin/source/{source}` -/

/-- The outcome of the single-source endpoint: a 200 `JSONResponse` with
a body, or a raised `HTTPException` with a status code and detail. -/
inductive SingleResp where
  | ok200 (body : Json)
  | httpError (status : Nat) (detail : String)
deriving Repr

/-- `result["source"] = source; result["timestamp"] = ...` applied to the
normalizer's record. -/
def withMeta (r : Json) (source now : String) : Json :=
  objSet (objSet r "source" (.str source)) "timestamp" (.str now)

/-- The apostrophe character, for rendering Python string reprs. -/
def sglQuote : String := String.singleton (Char.ofNat 39)

/-- Python `repr` of a list of strings, as an f-string interpolates
`list(CRYPTO_APIS.keys())`. -/
def pyListRepr (xs : List String) : String :=
  "[" ++ String.intercalate ", " (xs.map (fun s => sglQuote ++ s ++ sglQuote)) ++ "]"

/-- The detail of the 400 rejection for an unregistered identifier:
`f"Invalid source. Available sources: {list(CRYPTO_APIS.keys())}"`. -/
def invalidSourceDetail : String :=
  "Invalid source. Available sources: " ++ pyListRepr registeredSources

/-- Substring test on strings. -/
def strContains (s pat : String) : Bool := containsSub s.toList pat.toList

/-- The second iteration of the single-source `for attempt in range(2)`
loop (no backoff sleep precedes it): `raise_for_status` raises
`requests.exceptions.HTTPError` only for status ≥ 400, a timeout becomes
HTTP 504 and any other request failure HTTP 503. -/
def singleSecondAttempt (env : Nat → HttpAttempt) (source now : String) :
    SingleResp × Trace :=
  match env 1 with
  | .response st b =>
    if 400 ≤ st then
      (.httpError 503 ("Network error while fetching from " ++ source ++ ": "
        ++ attemptErrStr (.response st b)), ⟨2, []⟩)
    else (.ok200 (withMeta (parseOut source b) source now), ⟨2, []⟩)
  | .timeout =>
    (.httpError 504 ("Timeout while fetching from " ++ source
      ++ " after retries. The service might be slow or unavailable."), ⟨2, []⟩)
  | .exc m =>
    (.httpError 503 ("Network error while fetching from " ++ source ++ ": " ++ m),
     ⟨2, []⟩)

/-- The single-source generic retry loop: a successful-status response is
parsed and returned as a 200 body with `source`/`timestamp` added; a
timeout or request exception on attempt 0 `continue`s immediately
(without any sleep). -/
def singleRequestLoop (env : Nat → HttpAttempt) (source now : String) :
    SingleResp × Trace :=
  match env 0 with
  | .response st b =>
    if 400 ≤ st then singleSecondAttempt env source now
    else (.ok200 (withMeta (parseOut source b) source now), ⟨1, []⟩)
  | .timeout => singleSecondAttempt env source now
  | .exc _ => singleSecondAttempt env source now

/-- The body construction of the bespoke `nobitex` order-book branch:
the same status check and bid/ask/midpoint computation as the normalizer
(shared `nobitexVals`), then the response dict with the `spread` field
and `lastUpdate`; a failing status check raises
`HTTPException(500, "Invalid response from Nobitex")`. -/
def nobitexOrderbookBody (b : Json) (now : String) : Except PyExc SingleResp := do
  match ← nobitexVals b with
  | some r => do
    let lu ← pyGetD b "lastUpdate" (.num 0)
    return .ok200 (.obj
      [("source", .str "nobitex"),
       ("usd", .num r.1),
       ("last_trade_price", .num r.2.1),
       ("best_bid", .num r.2.2.1),
       ("best_ask", .num r.2.2.2),
       ("spread", .num (if r.2.2.1 ≠ 0 ∧ r.2.2.2 ≠ 0 then r.2.2.2 - r.2.2.1 else 0)),
       ("last_update", lu),
       ("timestamp", .str now)])
  | none => return .httpError 500 "Invalid response from Nobitex"

/-- The bespoke `nobitex` path: one `requests.get` with no retry; any
request failure or data-access exception propagates to the endpoint's
outer `except Exception` and becomes HTTP 500
(`f"Error fetching from {source}: {e}"`). -/
def nobitexSinglePath (env : Nat → HttpAttempt) (now : String) :
    SingleResp × Trace :=
  match env 0 with
  | .response st b =>
    if 400 ≤ st then
      (.httpError 500 ("Error fetching from nobitex: "
        ++ attemptErrStr (.response st b)), ⟨1, []⟩)
    else
      match nobitexOrderbookBody b now with
      | .ok resp => (resp, ⟨1, []⟩)
      | .error e =>
        (.httpError 500 ("Error fetching from nobitex: " ++ e.msg), ⟨1, []⟩)
  | .timeout =>
    (.httpError 500 ("Error fetching from nobitex: " ++ attemptErrStr .timeout),
     ⟨1, []⟩)
  | .exc m => (.httpError 500 ("Error fetching from nobitex: " ++ m), ⟨1, []⟩)

/-- `get_bitcoin_from_source`: the registry check (HTTP 400 with the
known identifiers), the `coinmarketcap` credential check (HTTP 500), the
bespoke `nobitex` branch, and the generic retry loop. -/
def get_bitcoin_from_source (key : Option String) (env : Nat → HttpAttempt)
    (source now : String) : SingleResp × Trace :=
  if ¬ registeredSources.contains source then
    (.httpError 400 invalidSourceDetail, ⟨0, []⟩)
  else if source = "coinmarketcap" ∧ key = none then
    (.httpError 500 "CoinMarketCap requires API key. Add COINMARKETCAP_API_KEY to .env",
     ⟨0, []⟩)
  else if source = "nobitex" then
    nobitexSinglePath env now
  else
    singleRequestLoop env source now

/-! ## Totality of the normalizer

`parse_crypto_response` wraps its dispatch in `except Exception`; the
lemmas below show the dispatch can only raise exceptions that clause
catches (every data-access primitive raises `Exception` subclasses), so
the function always returns a dict. -/

/-- Every error this computation can produce is caught by
`except Exception`. -/
def safeExc {α : Type} (e : Except PyExc α) : Prop :=
  ∀ ex, e = .error ex → ex.catchable = true

lemma safeExc_ok {α : Type} (a : α) : safeExc (Except.ok a : Except PyExc α) := by
  intro ex h; cases h

lemma safeExc_pure {α : Type} (a : α) : safeExc (pure a : Except PyExc α) :=
  safeExc_ok a

lemma safeExc_bind {α β : Type} {e : Except PyExc α} {f : α → Except PyExc β}
    (he : safeExc e) (hf : ∀ a, safeExc (f a)) : safeExc (e >>= f) := by
  intro ex h
  cases e with
  | ok a => exact hf a ex h
  | error e0 =>
    have : e0 = ex := by
      simpa [Bind.bind, Except.bind] using h
    exact this ▸ he e0 rfl

lemma safeExc_map {α β : Type} {e : Except PyExc α} {f : α → β}
    (he : safeExc e) : safeExc (e.map f) := by
  intro ex h
  cases e with
  | ok a => simp [Except.map] at h
  | error e0 =>
    have : e0 = ex := by simpa [Except.map] using h
    exact this ▸ he e0 rfl

lemma safeExc_pyGetItem (j : Json) (k : String) : safeExc (pyGetItem j k) := by
  intro ex h
  unfold pyGetItem at h
  split at h <;> (try split at h) <;> cases h <;> rfl

lemma safeExc_pyIndex (j : Json) (i : Nat) : safeExc (pyIndex j i) := by
  intro ex h
  unfold pyIndex at h
  split at h <;> (try split at h) <;> cases h <;> rfl

lemma safeExc_pyGetD (j : Json) (k : String) (d : Json) : safeExc (pyGetD j k d) := by
  intro ex h
  unfold pyGetD at h
  split at h <;> (try split at h) <;> cases h <;> rfl

lemma safeExc_pyGet (j : Json) (k : String) : safeExc (pyGet j k) :=
  safeExc_pyGetD j k .null

lemma safeExc_pyContains (j : Json) (k : String) : safeExc (pyContains j k) := by
  intro ex h
  unfold pyContains at h
  split at h <;> cases h <;> rfl

lemma safeExc_pyFloat (j : Json) : safeExc (pyFloat j) := by
  intro ex h
  unfold pyFloat at h
  split at h <;> (try split at h) <;> cases h <;> rfl

lemma safeExc_coinbaseRates (d : Json) : safeExc (coinbaseRates d) := by
  unfold coinbaseRates
  apply safeExc_bind (safeExc_pyGetItem _ _); intro a1
  apply safeExc_bind (safeExc_pyGetItem _ _); intro a2
  apply safeExc_bind (safeExc_pyGetItem _ _); intro a3
  apply safeExc_bind (safeExc_pyFloat _); intro u
  apply safeExc_bind (safeExc_pyGetItem _ _); intro b1
  apply safeExc_bind (safeExc_pyGetItem _ _); intro b2
  apply safeExc_bind (safeExc_pyGetItem _ _); intro b3
  apply safeExc_bind (safeExc_pyFloat _); intro e
  apply safeExc_bind (safeExc_pyGetItem _ _); intro c1
  apply safeExc_bind (safeExc_pyGetItem _ _); intro c2
  apply safeExc_bind (safeExc_pyGetItem _ _); intro c3
  apply safeExc_bind (safeExc_pyFloat _); intro g
  exact safeExc_pure _

lemma safeExc_blockchainVals (d : Json) : safeExc (blockchainVals d) := by
  unfold blockchainVals
  apply safeExc_bind (safeExc_pyGetItem _ _); intro a1
  apply safeExc_bind (safeExc_pyGetItem _ _); intro u
  apply safeExc_bind (safeExc_pyGetItem _ _); intro b1
  apply safeExc_bind (safeExc_pyGetItem _ _); intro e
  apply safeExc_bind (safeExc_pyGetItem _ _); intro c1
  apply safeExc_bind (safeExc_pyGetItem _ _); intro g
  exact safeExc_pure _

lemma safeExc_coinmarketcapVals (d : Json) : safeExc (coinmarketcapVals d) := by
  unfold coinmarketcapVals
  apply safeExc_bind (safeExc_pyGetItem _ _); intro a1
  apply safeExc_bind (safeExc_pyGetItem _ _); intro a2
  apply safeExc_bind (safeExc_pyGetItem _ _); intro a3
  apply safeExc_bind (safeExc_pyGetItem _ _); intro btc
  apply safeExc_bind (safeExc_pyGetItem _ _); intro p
  apply safeExc_bind (safeExc_pyGetItem _ _); intro c
  apply safeExc_bind (safeExc_pyGetItem _ _); intro m
  apply safeExc_bind (safeExc_pyGetItem _ _); intro v
  exact safeExc_pure _

lemma safeExc_binancePrice (d : Json) : safeExc (binancePrice d) := by
  unfold binancePrice
  exact safeExc_bind (safeExc_pyGetItem _ _) (fun a => safeExc_pyFloat _)

lemma safeExc_ite {α : Type} {c : Prop} [Decidable c] {e1 e2 : Except PyExc α}
    (h1 : safeExc e1) (h2 : safeExc e2) : safeExc (if c then e1 else e2) := by
  split <;> assumption

lemma safeExc_krakenPrice (d : Json) : safeExc (krakenPrice d) := by
  unfold krakenPrice
  apply safeExc_bind (safeExc_pyContains _ _); intro b1
  dsimp only
  split
  · apply safeExc_bind (safeExc_pyGetItem _ _); intro x
    apply safeExc_bind (safeExc_pyContains _ _); intro y
    apply safeExc_ite
    · apply safeExc_bind (safeExc_pyGetItem _ _); intro r1
      apply safeExc_bind (safeExc_pyGetItem _ _); intro r2
      apply safeExc_bind (safeExc_pyGetItem _ _); intro r3
      apply safeExc_bind (safeExc_pyIndex _ _); intro r4
      apply safeExc_bind (safeExc_pyFloat _); intro v
      exact safeExc_pure _
    · exact safeExc_pure _
  · apply safeExc_bind (safeExc_pure _); intro y
    apply safeExc_ite
    · apply safeExc_bind (safeExc_pyGetItem _ _); intro r1
      apply safeExc_bind (safeExc_pyGetItem _ _); intro r2
      apply safeExc_bind (safeExc_pyGetItem _ _); intro r3
      apply safeExc_bind (safeExc_pyIndex _ _); intro r4
      apply safeExc_bind (safeExc_pyFloat _); intro v
      exact safeExc_pure _
    · exact safeExc_pure _

lemma safeExc_nobitexVals (d : Json) : safeExc (nobitexVals d) := by
  unfold nobitexVals
  apply safeExc_bind (safeExc_pyGet _ _); intro st
  apply safeExc_ite
  · apply safeExc_bind (safeExc_pyGetD _ _ _); intro ltpRaw
    apply safeExc_bind (safeExc_pyFloat _); intro ltp
    apply safeExc_bind (safeExc_pyGetD _ _ _); intro bids
    apply safeExc_bind (safeExc_pyGetD _ _ _); intro asks
    dsimp only
    split
    · apply safeExc_bind (safeExc_pyIndex _ _); intro x1
      apply safeExc_bind (safeExc_pyIndex _ _); intro x2
      apply safeExc_bind (safeExc_pyFloat _); intro bb
      split
      · apply safeExc_bind (safeExc_pyIndex _ _); intro y1
        apply safeExc_bind (safeExc_pyIndex _ _); intro y2
        apply safeExc_bind (safeExc_pyFloat _); intro ba
        exact safeExc_pure _
      · apply safeExc_bind (safeExc_pure _); intro ba
        exact safeExc_pure _
    · apply safeExc_bind (safeExc_pure _); intro bb
      split
      · apply safeExc_bind (safeExc_pyIndex _ _); intro y1
        apply safeExc_bind (safeExc_pyIndex _ _); intro y2
        apply safeExc_bind (safeExc_pyFloat _); intro ba
        exact safeExc_pure _
      · apply safeExc_bind (safeExc_pure _); intro ba
        exact safeExc_pure _
  · exact safeExc_pure _

lemma safeExc_parseCore (s : String) (d : Json) : safeExc (parseCore s d) := by
  unfold parseCore
  split
  · exact safeExc_map (safeExc_coinbaseRates d)
  · split
    · exact safeExc_map (safeExc_blockchainVals d)
    · split
      · exact safeExc_map (safeExc_coinmarketcapVals d)
      · split
        · exact safeExc_map (safeExc_binancePrice d)
        · split
          · exact safeExc_map (safeExc_krakenPrice d)
          · split
            · exact safeExc_map (safeExc_nobitexVals d)
            · exact safeExc_ok _

/-- `parse_crypto_response` never lets an exception escape: the wrapper
`except Exception` catches every exception the dispatch can raise. -/
lemma parse_crypto_response_ok (s : String) (d : Json) :
    ∃ r, parse_crypto_response s d = .ok r := by
  unfold parse_crypto_response
  cases h : parseCore s d with
  | ok r => exact ⟨r, rfl⟩
  | error e =>
    have hc := safeExc_parseCore s d e h
    refine ⟨errObj ("Parse error: " ++ e.msg), ?_⟩
    simp [hc]

lemma parse_crypto_response_eq_out (s : String) (d : Json) :
    parse_crypto_response s d = .ok (parseOut s d) := by
  obtain ⟨r, hr⟩ := parse_crypto_response_ok s d
  rw [hr]
  unfold parseOut
  rw [hr]

lemma map_eq_ok {α β : Type} {e : Except PyExc α} {f : α → β} {r : β}
    (h : e.map f = .ok r) : ∃ a, e = .ok a ∧ r = f a := by
  cases e with
  | ok a =>
    refine ⟨a, rfl, ?_⟩
    have : (Except.ok (f a) : Except PyExc β) = .ok r := by simpa [Except.map] using h
    cases this; rfl
  | error e0 => simp [Except.map] at h

lemma parseCore_ok_isDict {s : String} {d : Json} {r : Json}
    (h : parseCore s d = .ok r) : isDict r = true := by
  unfold parseCore at h
  split at h
  · obtain ⟨a, _, ha⟩ := map_eq_ok h; subst ha; rfl
  · split at h
    · obtain ⟨a, _, ha⟩ := map_eq_ok h; subst ha; rfl
    · split at h
      · obtain ⟨a, _, ha⟩ := map_eq_ok h; subst ha; rfl
      · split at h
        · obtain ⟨a, _, ha⟩ := map_eq_ok h; subst ha; rfl
        · split at h
          · obtain ⟨a, _, ha⟩ := map_eq_ok h; subst ha; cases a <;> rfl
          · split at h
            · obtain ⟨a, _, ha⟩ := map_eq_ok h; subst ha; cases a <;> rfl
            · cases h; rfl

/-- Every value the normalizer hands back is a dict. -/
lemma parseOut_isDict (s : String) (d : Json) : isDict (parseOut s d) = true := by
  unfold parseOut
  cases h : parse_crypto_response s d with
  | ok r =>
    unfold parse_crypto_response at h
    cases h2 : parseCore s d with
    | ok r2 =>
      rw [h2] at h; cases h; exact parseCore_ok_isDict h2
    | error e =>
      rw [h2] at h
      dsimp only at h
      have hc := safeExc_parseCore s d e h2
      rw [if_pos hc] at h
      cases h; rfl
  | error e => rfl

/-! ## Structural lemmas about the aggregate fan-out -/

lemma simpleFetch_isDict (env : Nat → HttpAttempt) (source msgHead : String) :
    isDict (simpleFetch env source msgHead).1 = true := by
  unfold simpleFetch
  split
  · split
    · exact parseOut_isDict _ _
    · rfl
  · rfl
  · rfl

lemma aggSecondAttempt_isDict (env : Nat → HttpAttempt) (source : String) :
    isDict (aggSecondAttempt env source).1 = true := by
  unfold aggSecondAttempt
  split
  · split
    · exact parseOut_isDict _ _
    · rfl
  · rfl
  · rfl

lemma aggRequestLoop_isDict (env : Nat → HttpAttempt) (source : String) :
    isDict (aggRequestLoop env source).1 = true := by
  unfold aggRequestLoop
  split
  · split
    · exact parseOut_isDict _ _
    · exact aggSecondAttempt_isDict env source
  · exact aggSecondAttempt_isDict env source
  · exact aggSecondAttempt_isDict env source

/-- The first component of a unit of work's result is always its own
source identifier. -/
lemma fetch_source_fst (key : Option String) (env : String → Nat → HttpAttempt)
    (s : String) : (fetch_source key env s).1.1 = s := by
  unfold fetch_source
  split
  · rfl
  · split
    · rfl
    · split
      · rfl
      · rfl

/-- The value a unit of work reports is always a dict. -/
lemma fetch_source_isDict (key : Option String) (env : String → Nat → HttpAttempt)
    (s : String) : isDict (fetch_source key env s).1.2 = true := by
  unfold fetch_source
  split
  · rfl
  · split
    · exact simpleFetch_isDict _ _ _
    · split
      · exact simpleFetch_isDict _ _ _
      · exact aggRequestLoop_isDict _ _

/-- Dict entries are counted in exactly one of the two buckets. -/
lemma count_partition (rs : List (String × Json))
    (h : ∀ p ∈ rs, isDict p.2 = true) :
    (rs.filter (fun p => isSuccessEntry p.2)).length
      + (rs.filter (fun p => isFailedEntry p.2)).length = rs.length := by
  induction rs with
  | nil => rfl
  | cons hd tl ih =>
    have hhd : isDict hd.2 = true := h hd (by simp)
    have htl := ih (fun p hp => h p (by simp [hp]))
    by_cases he : objHasKey hd.2 "error" = true
    · have hs : isSuccessEntry hd.2 = false := by simp [isSuccessEntry, hhd, he]
      have hf : isFailedEntry hd.2 = true := by simp [isFailedEntry, hhd, he]
      simp [List.filter_cons, hs, hf]
      omega
    · have hs : isSuccessEntry hd.2 = true := by simp [isSuccessEntry, hhd, he]
      have hf : isFailedEntry hd.2 = false := by simp [isFailedEntry, hhd, he]
      simp [List.filter_cons, hs, hf]
      omega

/-- In task order, the keys of the non-timed-out report are exactly the
registry keys. -/
lemma agg_keys (key : Option String) (env : String → Nat → HttpAttempt) :
    (get_bitcoin_all_sources key env false).bitcoin_prices.map Prod.fst
      = registeredSources := by
  show (CRYPTO_APIS.map (fun p => (fetch_source key env p.1).1)).map Prod.fst
      = registeredSources
  simp [CRYPTO_APIS, registeredSources, fetch_source_fst]

/-! ## Claim theorems -/

/-- The coinbase-style payload of the spec's normalization example. -/
def coinbasePayload : Json :=
  .obj [("data", .obj [("rates", .obj
    [("USD", .str "50000"), ("EUR", .str "46000"), ("GBP", .str "40000")])])]

/-- C6: normalizing the coinbase-style payload
`{"data":{"rates":{"USD":"50000","EUR":"46000","GBP":"40000"}}}` reads the
nested rates directly (no inversion): the canonical record is
`usd=50000, eur=46000, gbp=40000`. -/
theorem c6_coinbase_rates_direct :
    parseOut "coinbase" coinbasePayload =
      .obj [("usd", .num 50000), ("eur", .num 46000), ("gbp", .num 40000)] := rfl

/-- The pair-ticker payload carrying the result envelope but missing the
`XXBTZUSD` trading-pair key. -/
def krakenMissingPair : Json := .obj [("result", .obj [])]

/-- C7: for every source identifier and every payload shape the
normalizer returns without raising; a dispatch exception always becomes
the structured `{"error": "Parse error: ..."}` record; and the kraken
payload missing the trading-pair key yields the structured error record —
no crash and no (zero or other) usd price. -/
theorem c7_normalizer_never_raises :
    (∀ (source : String) (data : Json),
      ∃ r, parse_crypto_response source data = .ok r)
    ∧ (∀ (source : String) (data : Json) (e : PyExc),
        parseCore source data = .error e →
        parse_crypto_response source data = .ok (errObj ("Parse error: " ++ e.msg)))
    ∧ parse_crypto_response "kraken" krakenMissingPair
        = .ok (errObj "Unexpected Kraken response format")
    ∧ objHasKey (parseOut "kraken" krakenMissingPair) "usd" = false
    ∧ objGetNum (parseOut "kraken" krakenMissingPair) "usd" = none := by
  refine ⟨parse_crypto_response_ok, ?_, rfl, rfl, rfl⟩
  intro s d e h
  unfold parse_crypto_response
  rw [h]
  dsimp only
  rw [if_pos (safeExc_parseCore s d e h)]

/-- C3 counterexample: with every source's unit of work returning a
well-formed 200 response, a run where the 60-second global deadline fires
produces a report whose mapping is the single entry
`("error", "Global timeout reached")`: no unfinished source is recorded
as a Timeout under its own identifier, and even `coinbase`'s completed
outcome is absent — contradicting the claim. -/
theorem c3_counterexample :
    (get_bitcoin_all_sources none (fun _ _ => .response 200 coinbasePayload)
        true).bitcoin_prices
      = [("error", .str "Global timeout reached")]
    ∧ ((get_bitcoin_all_sources none (fun _ _ => .response 200 coinbasePayload)
        true).bitcoin_prices.map Prod.fst).contains "coinbase" = false :=
  ⟨rfl, rfl⟩

/-- C3 (amended): when the 60-second global deadline expires, the
`except asyncio.TimeoutError` arm discards every per-source outcome
(including those already completed) and the report's mapping is the
single entry `"error" → "Global timeout reached"` (a string value, so it
is counted in neither bucket). -/
theorem c3_global_timeout_discards_everything (key : Option String)
    (env : String → Nat → HttpAttempt) :
    (get_bitcoin_all_sources key env true).bitcoin_prices
        = [("error", .str "Global timeout reached")]
    ∧ (get_bitcoin_all_sources key env true).successful_sources = 0
    ∧ (get_bitcoin_all_sources key env true).failed_sources = 0 :=
  ⟨rfl, rfl, rfl⟩

/-- C1 counterexample: in a run where the global deadline fires (one of
the outcomes quantified over by "regardless of which sources succeed,
fail, raise, or time out"), the registered identifier `coinbase` has no
entry in `bitcoin_prices`, while the non-identifier key `"error"` does
have one — contradicting the claim. -/
theorem c1_counterexample :
    ((get_bitcoin_all_sources none (fun _ _ => .timeout) true).bitcoin_prices.map
        Prod.fst).count "coinbase" = 0
    ∧ registeredSources.contains "coinbase" = true
    ∧ ((get_bitcoin_all_sources none (fun _ _ => .timeout) true).bitcoin_prices.map
        Prod.fst).contains "error" = true
    ∧ registeredSources.contains "error" = false :=
  ⟨rfl, rfl, rfl, rfl⟩

/-- C1 (amended): whenever the 60-second global deadline does not expire
— whatever each source's attempts return, fail with, or raise — the
returned `bitcoin_prices` mapping has exactly one entry for every
registered identifier and no entry under any other key.  (When the
deadline does expire the mapping is the single `"error"` entry instead;
see the counterexample and the C3 theorems.) -/
theorem c1_exactly_one_entry_per_source (key : Option String)
    (env : String → Nat → HttpAttempt) (s : String) :
    ((get_bitcoin_all_sources key env false).bitcoin_prices.map Prod.fst).count s
      = if s ∈ registeredSources then 1 else 0 := by
  rw [agg_keys]
  by_cases h : s ∈ registeredSources
  · rw [if_pos h]
    exact List.count_eq_one_of_mem (by decide) h
  · rw [if_neg h]
    exact List.count_eq_zero_of_not_mem h

/-- C2 counterexample: in a run where the global deadline fires, the
mapping's only value is the string `"Global timeout reached"`, which is
not a dict, so both counts are 0 while 6 sources are registered —
contradicting the claim. -/
theorem c2_counterexample :
    (get_bitcoin_all_sources none (fun _ _ => .timeout) true).successful_sources
        + (get_bitcoin_all_sources none (fun _ _ => .timeout) true).failed_sources
      = 0
    ∧ CRYPTO_APIS.length = 6 :=
  ⟨rfl, rfl⟩

/-- C2 (amended): whenever the 60-second global deadline does not expire,
`successful_sources + failed_sources` equals the registry size: every
unit of work reports a dict, and each dict is counted in exactly one
bucket by the `"error"`-key test. -/
theorem c2_counts_sum_to_registry_size (key : Option String)
    (env : String → Nat → HttpAttempt) :
    (get_bitcoin_all_sources key env false).successful_sources
        + (get_bitcoin_all_sources key env false).failed_sources
      = CRYPTO_APIS.length := by
  have h : ∀ p ∈ CRYPTO_APIS.map (fun p => (fetch_source key env p.1).1),
      isDict p.2 = true := by
    intro p hp
    obtain ⟨q, _, rfl⟩ := List.mem_map.mp hp
    exact fetch_source_isDict key env q.1
  calc (get_bitcoin_all_sources key env false).successful_sources
        + (get_bitcoin_all_sources key env false).failed_sources
      = ((CRYPTO_APIS.map (fun p => (fetch_source key env p.1).1)).filter
          (fun p => isSuccessEntry p.2)).length
        + ((CRYPTO_APIS.map (fun p => (fetch_source key env p.1).1)).filter
          (fun p => isFailedEntry p.2)).length := rfl
    _ = (CRYPTO_APIS.map (fun p => (fetch_source key env p.1).1)).length :=
        count_partition _ h
    _ = CRYPTO_APIS.length := by simp

/-- The order-book payload of the spec's normalization example. -/
def orderbookPayload : Json :=
  .obj [("status", .str "ok"), ("lastTradePrice", .str "100"),
        ("bids", .arr [.arr [.str "99", .str "1"]]),
        ("asks", .arr [.arr [.str "101", .str "1"]])]

/-- C5 counterexample: on the aggregate path the order-book source's
canonical record is produced by `parse_crypto_response`'s nobitex branch,
which builds only `usd`, `last_trade_price`, `best_bid`, `best_ask` — the
record the aggregate call reports for this payload is a success record
(`usd = 100`) with no `spread` field, contradicting the claim that
`spread` is present on every path that returns a canonical record. -/
theorem c5_counterexample :
    objHasKey (fetch_source none (fun _ _ => .response 200 orderbookPayload)
        "nobitex").1.2 "spread" = false
    ∧ objGetNum (fetch_source none (fun _ _ => .response 200 orderbookPayload)
        "nobitex").1.2 "usd" = some 100 := by
  have h1 : ((99 : ℚ) + 101) / 2 = 100 := by norm_num
  refine ⟨rfl, ?_⟩
  calc objGetNum (fetch_source none (fun _ _ => .response 200 orderbookPayload)
          "nobitex").1.2 "usd"
      = some (((99 : ℚ) + 101) / 2) := rfl
    _ = some 100 := by rw [h1]

/-- C5 (amended): normalizing the order-book payload
`{"status":"ok","lastTradePrice":"100","bids":[["99","1"]],"asks":[["101","1"]]}`
yields `best_bid = 99`, `best_ask = 101`, `usd = 100` (the midpoint) and
`spread = 2`; on the single-source path the returned record carries all
four canonical fields plus `last_trade_price`, while on the aggregate
path the canonical record carries `usd`, `last_trade_price`, `best_bid`
and `best_ask` but no `spread` field. -/
theorem c5_orderbook_normalization :
    get_bitcoin_from_source none (fun _ => .response 200 orderbookPayload)
        "nobitex" "T"
      = (.ok200 (.obj
          [("source", .str "nobitex"), ("usd", .num 100),
           ("last_trade_price", .num 100), ("best_bid", .num 99),
           ("best_ask", .num 101), ("spread", .num 2), ("last_update", .num 0),
           ("timestamp", .str "T")]), ⟨1, []⟩)
    ∧ fetch_source none (fun _ _ => .response 200 orderbookPayload) "nobitex"
      = (("nobitex", parseOut "nobitex" orderbookPayload), ⟨1, []⟩)
    ∧ parseOut "nobitex" orderbookPayload
      = .obj [("usd", .num 100), ("last_trade_price", .num 100),
              ("best_bid", .num 99), ("best_ask", .num 101)]
    ∧ objHasKey (parseOut "nobitex" orderbookPayload) "spread" = false := by
  have h1 : ((99 : ℚ) + 101) / 2 = 100 := by norm_num
  have h2 : (101 : ℚ) - 99 = 2 := by norm_num
  refine ⟨?_, rfl, ?_, rfl⟩
  · calc get_bitcoin_from_source none (fun _ => .response 200 orderbookPayload)
          "nobitex" "T"
        = (.ok200 (.obj
            [("source", .str "nobitex"), ("usd", .num (((99 : ℚ) + 101) / 2)),
             ("last_trade_price", .num 100), ("best_bid", .num 99),
             ("best_ask", .num 101), ("spread", .num ((101 : ℚ) - 99)),
             ("last_update", .num 0), ("timestamp", .str "T")]), ⟨1, []⟩) := rfl
      _ = _ := by rw [h1, h2]
  · calc parseOut "nobitex" orderbookPayload
        = .obj [("usd", .num (((99 : ℚ) + 101) / 2)), ("last_trade_price", .num 100),
                ("best_bid", .num 99), ("best_ask", .num 101)] := rfl
      _ = _ := by rw [h1]

/-- C8: with no credential configured, the aggregate operation records
`coinmarketcap` as the configuration-error failure with zero HTTP
attempts (and no backoff), the report still maps every registered source
to its own unit of work's outcome, and no other source's outcome depends
on the credential. -/
theorem c8_coinmarketcap_requires_key (env : String → Nat → HttpAttempt)
    (k : String) :
    fetch_source none env "coinmarketcap"
      = (("coinmarketcap", errObj "API key required but not configured"), ⟨0, []⟩)
    ∧ (get_bitcoin_all_sources none env false).bitcoin_prices
      = CRYPTO_APIS.map (fun p => (fetch_source none env p.1).1)
    ∧ fetch_source (some k) env "coinbase" = fetch_source none env "coinbase"
    ∧ fetch_source (some k) env "blockchain" = fetch_source none env "blockchain"
    ∧ fetch_source (some k) env "binance" = fetch_source none env "binance"
    ∧ fetch_source (some k) env "kraken" = fetch_source none env "kraken"
    ∧ fetch_source (some k) env "nobitex" = fetch_source none env "nobitex" :=
  ⟨rfl, rfl, rfl, rfl, rfl, rfl, rfl⟩

/-- C9: requesting the single-source operation with an identifier not in
the registry is rejected with HTTP 400 whose detail lists every known
identifier, and no HTTP attempt is made. -/
theorem c9_invalid_source (key : Option String) (env : Nat → HttpAttempt)
    (now s : String) (h : s ∉ registeredSources) :
    get_bitcoin_from_source key env s now
      = (.httpError 400 invalidSourceDetail, ⟨0, []⟩)
    ∧ (∀ t ∈ registeredSources, strContains invalidSourceDetail t = true) := by
  constructor
  · have hc : ¬ registeredSources.contains s = true := by
      intro hcon
      exact h (by simpa using hcon)
    unfold get_bitcoin_from_source
    rw [if_pos hc]
  · decide

/-- Witness for C9 at the concrete unregistered identifier
`"dogecoin"`. -/
theorem c9_invalid_source_witness :
    "dogecoin" ∉ registeredSources
    ∧ get_bitcoin_from_source none (fun _ => .timeout) "dogecoin" "T"
      = (.httpError 400 invalidSourceDetail, ⟨0, []⟩) :=
  ⟨by decide,
   (c9_invalid_source none (fun _ => .timeout) "T" "dogecoin" (by decide)).1⟩

/-! ## Retry-policy lemmas for the two fetch loops -/

/-- A generic-path aggregate attempt outcome that triggers a retry:
anything but a status-200 response. -/
def aggTransient : HttpAttempt → Prop
  | .response st _ => st ≠ 200
  | .timeout => True
  | .exc _ => True

/-- The error value the aggregate generic path reports when its final
attempt fails this way. -/
def aggFailVal : HttpAttempt → Json
  | .response st _ => errObj ("HTTP " ++ toString st)
  | .timeout => errObj "Timeout"
  | .exc m => errObj m

/-- A single-source-path attempt outcome that triggers a retry: an error
status (`raise_for_status` raises only for status ≥ 400), a timeout, or
another request exception. -/
def singleTransient : HttpAttempt → Prop
  | .response st _ => 400 ≤ st
  | .timeout => True
  | .exc _ => True

/-- The `HTTPException` the single-source path raises when its final
attempt fails this way. -/
def singleFailResp (source : String) : HttpAttempt → SingleResp
  | .response st b => .httpError 503 ("Network error while fetching from "
      ++ source ++ ": " ++ attemptErrStr (.response st b))
  | .timeout => .httpError 504 ("Timeout while fetching from " ++ source
      ++ " after retries. The service might be slow or unavailable.")
  | .exc m => .httpError 503 ("Network error while fetching from "
      ++ source ++ ": " ++ m)

/-- On the generic aggregate path every source reduces to the shared
retry loop. -/
lemma fetch_uses_generic_loop (key : Option String)
    (env : String → Nat → HttpAttempt) (s : String)
    (hs : s = "blockchain" ∨ s = "kraken" ∨ s = "nobitex"
          ∨ (s = "coinmarketcap" ∧ key ≠ none)) :
    fetch_source key env s
      = ((s, (aggRequestLoop (env s) s).1), (aggRequestLoop (env s) s).2) := by
  rcases hs with rfl | rfl | rfl | ⟨rfl, hk⟩
  · rfl
  · rfl
  · rfl
  · cases key with
    | none => exact absurd rfl hk
    | some k => rfl

/-- On the single-source path every non-order-book source reduces to the
shared retry loop. -/
lemma single_uses_generic_loop (key : Option String) (env : Nat → HttpAttempt)
    (now t : String)
    (ht : t = "coinbase" ∨ t = "blockchain" ∨ t = "binance" ∨ t = "kraken"
          ∨ (t = "coinmarketcap" ∧ key ≠ none)) :
    get_bitcoin_from_source key env t now = singleRequestLoop env t now := by
  rcases ht with rfl | rfl | rfl | rfl | ⟨rfl, hk⟩
  · rfl
  · rfl
  · rfl
  · rfl
  · cases key with
    | none => exact absurd rfl hk
    | some k => rfl

lemma aggSecond_trace (env : Nat → HttpAttempt) (s : String) :
    (aggSecondAttempt env s).2 = ⟨2, [1]⟩ := by
  unfold aggSecondAttempt
  cases env 1 with
  | response st b => dsimp only; split <;> rfl
  | timeout => rfl
  | exc m => rfl

lemma aggSecond_fail (env : Nat → HttpAttempt) (s : String)
    (h : aggTransient (env 1)) : (aggSecondAttempt env s).1 = aggFailVal (env 1) := by
  unfold aggSecondAttempt
  cases h1 : env 1 with
  | response st b =>
    rw [h1] at h
    dsimp only
    rw [if_neg h]
    rfl
  | timeout => rfl
  | exc m => rfl

lemma aggSecond_success (env : Nat → HttpAttempt) (s : String) (b : Json)
    (h : env 1 = .response 200 b) : (aggSecondAttempt env s).1 = parseOut s b := by
  unfold aggSecondAttempt
  rw [h]
  dsimp only
  rw [if_pos rfl]

lemma aggLoop_transient (env : Nat → HttpAttempt) (s : String)
    (h : aggTransient (env 0)) : aggRequestLoop env s = aggSecondAttempt env s := by
  unfold aggRequestLoop
  cases h0 : env 0 with
  | response st b =>
    rw [h0] at h
    dsimp only
    rw [if_neg h]
  | timeout => rfl
  | exc m => rfl

lemma aggLoop_first_success (env : Nat → HttpAttempt) (s : String) (b : Json)
    (h : env 0 = .response 200 b) :
    aggRequestLoop env s = (parseOut s b, ⟨1, []⟩) := by
  unfold aggRequestLoop
  rw [h]
  dsimp only
  rw [if_pos rfl]

lemma aggLoop_attempts (env : Nat → HttpAttempt) (s : String) :
    (aggRequestLoop env s).2.attempts ≤ 2 := by
  unfold aggRequestLoop
  cases env 0 with
  | response st b =>
    dsimp only
    split
    · exact Nat.le_succ 1
    · rw [aggSecond_trace]
  | timeout => rw [aggSecond_trace]
  | exc m => rw [aggSecond_trace]

lemma singleSecond_trace (env : Nat → HttpAttempt) (t now : String) :
    (singleSecondAttempt env t now).2 = ⟨2, []⟩ := by
  unfold singleSecondAttempt
  cases env 1 with
  | response st b => dsimp only; split <;> rfl
  | timeout => rfl
  | exc m => rfl

lemma singleSecond_fail (env : Nat → HttpAttempt) (t now : String)
    (h : singleTransient (env 1)) :
    (singleSecondAttempt env t now).1 = singleFailResp t (env 1) := by
  unfold singleSecondAttempt
  cases h1 : env 1 with
  | response st b =>
    rw [h1] at h
    dsimp only
    rw [if_pos (show 400 ≤ st from h)]
    rfl
  | timeout => rfl
  | exc m => rfl

lemma singleLoop_transient (env : Nat → HttpAttempt) (t now : String)
    (h : singleTransient (env 0)) :
    singleRequestLoop env t now = singleSecondAttempt env t now := by
  unfold singleRequestLoop
  cases h0 : env 0 with
  | response st b =>
    rw [h0] at h
    dsimp only
    rw [if_pos (show 400 ≤ st from h)]
  | timeout => rfl
  | exc m => rfl

lemma singleLoop_first_success (env : Nat → HttpAttempt) (t now : String)
    (st : Nat) (b : Json) (h : env 0 = .response st b) (hlt : st < 400) :
    singleRequestLoop env t now
      = (.ok200 (withMeta (parseOut t b) t now), ⟨1, []⟩) := by
  unfold singleRequestLoop
  rw [h]
  dsimp only
  rw [if_neg (by omega : ¬ 400 ≤ st)]

lemma singleLoop_attempts (env : Nat → HttpAttempt) (t now : String) :
    (singleRequestLoop env t now).2.attempts ≤ 2 := by
  unfold singleRequestLoop
  cases env 0 with
  | response st b =>
    dsimp only
    split
    · rw [singleSecond_trace]
    · exact Nat.le_succ 1
  | timeout => rw [singleSecond_trace]
  | exc m => rw [singleSecond_trace]

/-- C4 counterexample: (i) on the single-source path a first-attempt
timeout is retried immediately — the unit's trace shows 2 attempts and an
empty sleep list, no ~1-second backoff; (ii) on the aggregate generic
path a 201 response (a 2xx status) does not return immediately: the
loop's `status_code == 200` test treats it as a failure and issues a
second attempt.  Both contradict the claim as stated. -/
theorem c4_counterexample :
    (get_bitcoin_from_source none
        (fun n => if n = 0 then .timeout else .response 200 krakenMissingPair)
        "kraken" "T").2
      = ⟨2, []⟩
    ∧ (fetch_source none (fun _ _ => .response 201 coinbasePayload) "kraken").2
      = ⟨2, [1]⟩ :=
  ⟨rfl, rfl⟩

/-- C4 (amended): on both paths the fetcher makes at most 2 HTTP
attempts; on the aggregate generic path a transient first attempt (a
non-200 status, timeout, or other request exception) is followed by a
fixed 1-second backoff and one retry, while on the single-source path the
retry is immediate with no backoff; on both paths, when the retry also
fails the surfaced failure is the retry's, not the first attempt's; and a
first-attempt success — status 200 on the aggregate path, any status
below 400 on the single-source path — returns immediately with no second
attempt. -/
theorem c4_retry_policy (key : Option String) (env : String → Nat → HttpAttempt)
    (envS : Nat → HttpAttempt) (s t now : String)
    (hA : s = "blockchain" ∨ s = "kraken" ∨ s = "nobitex"
          ∨ (s = "coinmarketcap" ∧ key ≠ none))
    (hS : t = "coinbase" ∨ t = "blockchain" ∨ t = "binance" ∨ t = "kraken"
          ∨ (t = "coinmarketcap" ∧ key ≠ none)) :
    ((fetch_source key env s).2.attempts ≤ 2
      ∧ (get_bitcoin_from_source key envS t now).2.attempts ≤ 2)
    ∧ (∀ b, env s 0 = .response 200 b →
        fetch_source key env s = ((s, parseOut s b), ⟨1, []⟩))
    ∧ (∀ st b, envS 0 = .response st b → st < 400 →
        get_bitcoin_from_source key envS t now
          = (.ok200 (withMeta (parseOut t b) t now), ⟨1, []⟩))
    ∧ (aggTransient (env s 0) → (fetch_source key env s).2 = ⟨2, [1]⟩)
    ∧ (singleTransient (envS 0) →
        (get_bitcoin_from_source key envS t now).2 = ⟨2, []⟩)
    ∧ (aggTransient (env s 0) → aggTransient (env s 1) →
        (fetch_source key env s).1.2 = aggFailVal (env s 1))
    ∧ (singleTransient (envS 0) → singleTransient (envS 1) →
        (get_bitcoin_from_source key envS t now).1 = singleFailResp t (envS 1))
    ∧ (aggTransient (env s 0) → ∀ b, env s 1 = .response 200 b →
        (fetch_source key env s).1.2 = parseOut s b) := by
  rw [fetch_uses_generic_loop key env s hA, single_uses_generic_loop key envS now t hS]
  refine ⟨⟨aggLoop_attempts _ _, singleLoop_attempts _ _ _⟩, ?_, ?_, ?_, ?_, ?_, ?_, ?_⟩
  · intro b h0
    rw [aggLoop_first_success (env s) s b h0]
  · intro st b h0 hlt
    exact singleLoop_first_success envS t now st b h0 hlt
  · intro h0
    rw [aggLoop_transient (env s) s h0, aggSecond_trace]
  · intro h0
    rw [singleLoop_transient envS t now h0, singleSecond_trace]
  · intro h0 h1
    rw [aggLoop_transient (env s) s h0]
    exact aggSecond_fail (env s) s h1
  · intro h0 h1
    rw [singleLoop_transient envS t now h0]
    exact singleSecond_fail envS t now h1
  · intro h0 b h1
    rw [aggLoop_transient (env s) s h0]
    exact aggSecond_success (env s) s b h1

/-- Witness for C4 at `kraken` on both paths: a timing-out first attempt
and a successful second attempt, exercising the backoff (aggregate) and
no-backoff (single-source) retries. -/
theorem c4_retry_policy_witness :
    (fetch_source none (fun _ n => if n = 0 then .timeout
        else .response 200 coinbasePayload) "kraken").2 = ⟨2, [1]⟩
    ∧ (get_bitcoin_from_source none (fun n => if n = 0 then .timeout
        else .response 200 coinbasePayload) "kraken" "T").2 = ⟨2, []⟩ := by
  have h := c4_retry_policy none
    (fun _ n => if n = 0 then .timeout else .response 200 coinbasePayload)
    (fun n => if n = 0 then .timeout else .response 200 coinbasePayload)
    "kraken" "kraken" "T" (Or.inr (Or.inl rfl)) (Or.inr (Or.inr (Or.inr (Or.inl rfl))))
  exact ⟨h.2.2.2.1 trivial, h.2.2.2.2.1 trivial⟩

/-- C10: on the single-source path for a non-order-book source, a 2xx (or
any non-error-status) fetch returns a 200-shaped `JSONResponse` whose
body is whatever record the normalizer produced — including its
`{"error": ...}` parse-failure record — augmented with `source` and
`timestamp`; by contrast a double timeout surfaces HTTP 504, a double
request failure HTTP 503, and a missing coinmarketcap credential
HTTP 500. -/
theorem c10_parse_failure_still_200 (key : Option String)
    (env : Nat → HttpAttempt) (now t : String)
    (ht : t = "coinbase" ∨ t = "blockchain" ∨ t = "binance" ∨ t = "kraken"
          ∨ (t = "coinmarketcap" ∧ key ≠ none)) :
    (∀ st b, env 0 = .response st b → st < 400 →
      get_bitcoin_from_source key env t now
        = (.ok200 (withMeta (parseOut t b) t now), ⟨1, []⟩))
    ∧ (env 0 = .timeout → env 1 = .timeout →
      (get_bitcoin_from_source key env t now).1
        = .httpError 504 ("Timeout while fetching from " ++ t
            ++ " after retries. The service might be slow or unavailable."))
    ∧ (∀ m m2, env 0 = .exc m → env 1 = .exc m2 →
      (get_bitcoin_from_source key env t now).1
        = .httpError 503 ("Network error while fetching from " ++ t ++ ": " ++ m2))
    ∧ (get_bitcoin_from_source none env "coinmarketcap" now).1
        = .httpError 500
            "CoinMarketCap requires API key. Add COINMARKETCAP_API_KEY to .env" := by
  rw [single_uses_generic_loop key env now t ht]
  refine ⟨?_, ?_, ?_, rfl⟩
  · intro st b h0 hlt
    exact singleLoop_first_success env t now st b h0 hlt
  · intro h0 h1
    have := singleSecond_fail env t now (by rw [h1]; trivial)
    rw [singleLoop_transient env t now (by rw [h0]; trivial), this, h1]
    rfl
  · intro m m2 h0 h1
    have := singleSecond_fail env t now (by rw [h1]; trivial)
    rw [singleLoop_transient env t now (by rw [h0]; trivial), this, h1]
    rfl

/-- Witness for C10: a 200 kraken response whose payload lacks the
trading-pair key still yields a 200 body — the normalizer's error record
with `source` and `timestamp` appended — not an HTTP error status. -/
theorem c10_parse_failure_still_200_witness :
    get_bitcoin_from_source none (fun _ => .response 200 krakenMissingPair)
        "kraken" "T"
      = (.ok200 (.obj [("error", .str "Unexpected Kraken response format"),
          ("source", .str "kraken"), ("timestamp", .str "T")]), ⟨1, []⟩) := by
  have h := (c10_parse_failure_still_200 none
      (fun _ => .response 200 krakenMissingPair) "T" "kraken"
      (Or.inr (Or.inr (Or.inr (Or.inl rfl))))).1 200 krakenMissingPair rfl
      (by omega)
  rw [h]
  rfl

/-- Witness for C7: a binance payload missing the `price` field raises a
`KeyError` in the dispatch, which the wrapper converts into the
structured parse-error record. -/
theorem c7_normalizer_never_raises_witness :
    parse_crypto_response "binance" (.obj [])
      = .ok (errObj ("Parse error: " ++ (PyExc.keyError "price").msg)) :=
  c7_normalizer_never_raises.2.1 "binance" (.obj []) (.keyError "price") rfl
